import Mathlib

/-!
# Verification of the realtime-network-telemetry-pipeline dashboard and pipeline contracts

A shallow embedding of the job-aggregation pipeline's dashboard layer
(Next.js API routes and React components under `src/website`) and of the
pipeline core (scorer, store, notifier) described by the project
documentation.  Machine integers are modelled as `Int`, nullable columns
as `Option`, JavaScript strings as Lean `String`.
-/

namespace JobPipeline

/-- A row of the `jobs` table / the dashboard's `Job` type: the Store's
persisted schema (`url`, `title`, `company`, `location`, `salary`,
`source`, `score`, `posted_date`, `easy_apply`, `applicants`, `notified`,
`applied`, `saved`, `notes`) together with the dashboard-era columns the
components read (`id`, `llm_score`, `role_category`, `job_type`).
`posted_date` is the epoch-milliseconds timestamp `new Date(...).getTime()`
would produce. -/
structure Job where
  id : Int
  url : String
  title : String
  company : String
  location : String
  salary : Option Int
  description : Option String
  source : String
  score : Int
  llm_score : Option Int
  posted_date : Int
  easy_apply : Bool
  applicants : Option Int
  role_category : String
  job_type : String
  notified : Bool
  applied : Bool
  saved : Bool
  notes : Option String
  deriving DecidableEq, Repr

/-- JavaScript `s.toLowerCase()` on the ASCII strings this dashboard
handles: character-wise lowercasing, viewed as a character list. -/
def jsLower (s : String) : List Char :=
  s.toList.map Char.toLower

/-- JavaScript `hay.includes(needle)`: substring (contiguous) containment. -/
def jsIncludes (hay needle : List Char) : Bool :=
  decide (needle <:+: hay)

/-- Stable descending sort by an integer key: the semantics of
JavaScript `Array.prototype.sort((a, b) => key(b) - key(a))` (a stable
sort placing larger keys first, ties kept in input order) and of the
supabase `.order(col, { ascending: false })` clause. -/
def sortDesc (key : α → Int) (l : List α) : List α :=
  l.insertionSort (fun a b => key b ≤ key a)

theorem mem_sortDesc (key : α → Int) (l : List α) (x : α) :
    x ∈ sortDesc key l ↔ x ∈ l :=
  List.mem_insertionSort _

theorem sortDesc_pairwise (key : α → Int) (l : List α) :
    (sortDesc key l).Pairwise (fun a b => key b ≤ key a) := by
  haveI : IsTotal α (fun a b => key b ≤ key a) := ⟨fun a b => le_total (key b) (key a)⟩
  haveI : IsTrans α (fun a b => key b ≤ key a) :=
    ⟨fun _ _ _ h₁ h₂ => le_trans h₂ h₁⟩
  exact List.sorted_insertionSort _ l

/-- Handler of `GET /api/jobs` (src/website/app/api/jobs/route.ts): on success the
handler runs `select("*").order("score", { ascending: false }).limit(500)`
against the `jobs` table and responds with `data ?? []`.  The table
contents are the function's argument; the returned list is the JSON body. -/
def jobsGET (db : List Job) : List Job :=
  ((sortDesc (fun j => j.score) db).take 500)

/-- C2: every successful `GET /api/jobs` response is an array (never null)
of at most 500 job records sorted in non-increasing order of `score`. -/
theorem jobs_route_sorted_capped (db : List Job) :
    (jobsGET db).length ≤ 500 ∧
      (jobsGET db).Pairwise (fun a b => b.score ≤ a.score) := by
  constructor
  · exact List.length_take_le _ _
  · exact (sortDesc_pairwise (fun j => j.score) db).sublist (List.take_sublist _ _)

/-- The dashboard's `Filters` state (`src/website/app/page.tsx`,
`DEFAULT_FILTERS`): role and job-type selectors, source allow-list,
minimum score, remote-only and easy-apply-only toggles, free-text search
and the sort mode (`"score" | "date" | "salary"`). -/
structure Filters where
  role : String
  jobTypes : List String
  sources : List String
  minScore : Int
  remoteOnly : Bool
  easyApplyOnly : Bool
  search : String
  sortBy : String
  deriving DecidableEq, Repr

/-- The filter predicate of `JobsGrid` (src/website/components/JobsGrid.tsx,
the `jobs.filter((job) => ...)` callback): a chain of early `return false`
guards for role, job type, minimum score, remote-only, easy-apply-only,
source list and free-text search, then `return true`. -/
def jobMatchesFilters (f : Filters) (j : Job) : Bool :=
  if f.role != "all" && j.role_category != f.role then false
  else if !f.jobTypes.isEmpty && !f.jobTypes.contains j.job_type then false
  else if j.score < f.minScore then false
  else if f.remoteOnly && !jsIncludes (jsLower j.location) "remote".toList then false
  else if f.easyApplyOnly && !j.easy_apply then false
  else if !f.sources.isEmpty && !f.sources.contains j.source then false
  else if f.search != "" &&
      !jsIncludes (jsLower (j.title ++ " " ++ j.company ++ " " ++ j.location))
        (jsLower f.search) then false
  else true

/-- The sort key of `JobsGrid`'s comparator: `posted_date` timestamps for
`sortBy === "date"`, `salary ?? 0` for `"salary"`, and otherwise the
default score branch `llm_score ?? score`. -/
def sortKey (f : Filters) (j : Job) : Int :=
  if f.sortBy = "date" then j.posted_date
  else if f.sortBy = "salary" then j.salary.getD 0
  else j.llm_score.getD j.score

/-- The list of jobs `JobsGrid` renders as `JobCard`s: the input filtered
by `jobMatchesFilters`, then stably sorted descending by the comparator's
key. -/
def jobsGridRender (jobs : List Job) (f : Filters) : List Job :=
  sortDesc (sortKey f) (jobs.filter (jobMatchesFilters f))

/-- Trivial filter state: every toggle off, `sortBy = "score"` (the
dashboard's `DEFAULT_FILTERS`). -/
def defaultFilters : Filters :=
  { role := "all", jobTypes := [], sources := [], minScore := 0,
    remoteOnly := false, easyApplyOnly := false, search := "",
    sortBy := "score" }

/-- A job whose pipeline score is low but whose `llm_score` is high. -/
def jobLowScoreHighLlm : Job :=
  { id := 1, url := "https://example.com/a", title := "Data Engineer",
    company := "Acme", location := "Remote", salary := none,
    description := none, source := "dice", score := 10,
    llm_score := some 90, posted_date := 0, easy_apply := false,
    applicants := none, role_category := "data_engineer",
    job_type := "full_time", notified := false, applied := false,
    saved := false, notes := none }

/-- A job with a higher pipeline score and no `llm_score`. -/
def jobMidScoreNoLlm : Job :=
  { id := 2, url := "https://example.com/b", title := "ETL Engineer",
    company := "Beta", location := "NYC", salary := none,
    description := none, source := "remoteok", score := 50,
    llm_score := none, posted_date := 0, easy_apply := true,
    applicants := none, role_category := "data_engineer",
    job_type := "full_time", notified := false, applied := false,
    saved := false, notes := none }

/-- C3 counterexample: with `sortBy = "score"`, `JobsGrid` sorts by
`llm_score ?? score`, not by the `score` field — a job with
`score = 10, llm_score = 90` is rendered before a job with
`score = 50, llm_score = null`, so adjacent rendered jobs are not in
non-increasing order of `score`. -/
theorem jobsGrid_not_sorted_by_score_field :
    defaultFilters.sortBy = "score" ∧
      ¬ (jobsGridRender [jobLowScoreHighLlm, jobMidScoreNoLlm]
          defaultFilters).Chain' (fun a b => b.score ≤ a.score) := by
  refine ⟨rfl, fun h => ?_⟩
  rw [show jobsGridRender [jobLowScoreHighLlm, jobMidScoreNoLlm]
      defaultFilters = [jobLowScoreHighLlm, jobMidScoreNoLlm] from by decide,
    List.chain'_cons] at h
  exact absurd h.1 (by decide)

/-- C3 (amended): with `sortBy = "score"`, the list `JobsGrid` renders is
ordered by the effective score `llm_score ?? score` descending — for each
adjacent pair, the earlier job's `llm_score ?? score` is ≥ the later
job's. -/
theorem jobsGrid_sorted_by_effective_score (jobs : List Job) (f : Filters)
    (h : f.sortBy = "score") :
    (jobsGridRender jobs f).Chain'
      (fun a b => b.llm_score.getD b.score ≤ a.llm_score.getD a.score) := by
  have hk : ∀ j : Job, sortKey f j = j.llm_score.getD j.score := by
    intro j
    rw [sortKey, h, if_neg (by decide), if_neg (by decide)]
  have hp := sortDesc_pairwise (sortKey f) (jobs.filter (jobMatchesFilters f))
  have hp2 : (jobsGridRender jobs f).Pairwise
      (fun a b => b.llm_score.getD b.score ≤ a.llm_score.getD a.score) :=
    hp.imp (fun hab => by rw [hk, hk] at hab; exact hab)
  exact hp2.chain'

/-- Witness for C3's amended theorem at a concrete job list and filter
state. -/
theorem jobsGrid_sorted_by_effective_score_witness :
    (jobsGridRender [jobLowScoreHighLlm, jobMidScoreNoLlm]
      defaultFilters).Chain'
      (fun a b => b.llm_score.getD b.score ≤ a.llm_score.getD a.score) :=
  jobsGrid_sorted_by_effective_score [jobLowScoreHighLlm, jobMidScoreNoLlm]
    defaultFilters rfl

/-- C4: every job `JobsGrid` renders satisfies the active filters —
score ≥ `minScore`, source in the source list when that list is
non-empty, lower-cased location containing "remote" when `remoteOnly`
is set, `easy_apply` when `easyApplyOnly` is set — and occurs in the
input list. -/
theorem jobsGrid_filter_sound (jobs : List Job) (f : Filters) (j : Job)
    (h : j ∈ jobsGridRender jobs f) :
    f.minScore ≤ j.score ∧
      (f.sources ≠ [] → j.source ∈ f.sources) ∧
      (f.remoteOnly = true → jsIncludes (jsLower j.location) "remote".toList = true) ∧
      (f.easyApplyOnly = true → j.easy_apply = true) ∧
      j ∈ jobs := by
  rw [jobsGridRender, mem_sortDesc, List.mem_filter] at h
  obtain ⟨hj, hpred⟩ := h
  unfold jobMatchesFilters at hpred
  split at hpred
  · cases hpred
  split at hpred
  · cases hpred
  split at hpred
  · cases hpred
  split at hpred
  · cases hpred
  split at hpred
  · cases hpred
  split at hpred
  · cases hpred
  split at hpred
  · cases hpred
  · rename_i hrole htype hscore hremote heasy hsource hsearch
    refine ⟨by omega, ?_, ?_, ?_, hj⟩
    · intro hne
      simp only [Bool.and_eq_true, Bool.not_eq_true', not_and,
        List.isEmpty_eq_true] at hsource
      have := hsource (by simpa using hne)
      simpa using this
    · intro hr
      simp only [Bool.and_eq_true, Bool.not_eq_true', not_and] at hremote
      simpa using hremote hr
    · intro he
      simp only [Bool.and_eq_true, Bool.not_eq_true', not_and] at heasy
      simpa using heasy he

/-- Witness for C4 at a concrete job list and filter state. -/
theorem jobsGrid_filter_sound_witness :
    jobMidScoreNoLlm ∈ jobsGridRender [jobLowScoreHighLlm, jobMidScoreNoLlm]
        defaultFilters ∧
      defaultFilters.minScore ≤ jobMidScoreNoLlm.score ∧
      jobMidScoreNoLlm ∈ [jobLowScoreHighLlm, jobMidScoreNoLlm] := by
  have hmem : jobMidScoreNoLlm ∈ jobsGridRender
      [jobLowScoreHighLlm, jobMidScoreNoLlm] defaultFilters := by decide
  have h := jobsGrid_filter_sound [jobLowScoreHighLlm, jobMidScoreNoLlm]
    defaultFilters jobMidScoreNoLlm hmem
  exact ⟨hmem, h.1, h.2.2.2.2⟩

/-- The parsed JSON body of `POST /api/apply`
(src/website/app/api/apply/route.ts): `{ id, applied?, saved?, notes? }`.
`none` models a missing (or `null`, for `id`) field. -/
structure ApplyBody where
  id : Option Int
  applied : Option Bool
  saved : Option Bool
  notes : Option String
  deriving DecidableEq, Repr

/-- One entry of the `update` object the apply route sends to
`supabase.from("jobs").update(update)`: a column name with its new
value.  Only the three dashboard-owned columns can occur. -/
inductive ColUpdate where
  | setApplied (b : Bool)
  | setSaved (b : Bool)
  | setNotes (s : String)
  deriving DecidableEq, Repr

/-- The column name an update entry writes. -/
def ColUpdate.colName : ColUpdate → String
  | .setApplied _ => "applied"
  | .setSaved _ => "saved"
  | .setNotes _ => "notes"

/-- The apply route's update object: `const update = {}` followed by one
`if (x !== undefined) update.x = x` guard per dashboard-owned column. -/
def buildUpdate (body : ApplyBody) : List ColUpdate :=
  (match body.applied with | some b => [ColUpdate.setApplied b] | none => []) ++
  (match body.saved with | some b => [ColUpdate.setSaved b] | none => []) ++
  (match body.notes with | some s => [ColUpdate.setNotes s] | none => [])

/-- Apply one update entry to a row. -/
def applyCol (r : Job) : ColUpdate → Job
  | .setApplied b => { r with applied := b }
  | .setSaved b => { r with saved := b }
  | .setNotes s => { r with notes := some s }

/-- Apply a whole update object to a row: the database's partial `UPDATE`
of exactly the listed columns. -/
def applyUpdate (r : Job) (u : List ColUpdate) : Job :=
  u.foldl applyCol r

/-- The apply route's possible responses: `{ ok: true }` on success or an
error JSON `{ error: message }` with a status code. -/
inductive ApplyResponse where
  | okTrue
  | errorResp (status : Nat) (error : String)
  deriving DecidableEq, Repr

/-- Handler of `POST /api/apply` (src/website/app/api/apply/route.ts): reject a
falsy `id` with `400 {"error": "Missing id"}` before touching the
database, otherwise run the partial update against every `jobs` row whose
`id` matches.  Returns the response and the resulting table contents. -/
def postApply (db : List Job) (body : ApplyBody) : ApplyResponse × List Job :=
  match body.id with
  | none => (.errorResp 400 "Missing id", db)
  | some i =>
    if i = 0 then (.errorResp 400 "Missing id", db)
    else (.okTrue,
      db.map (fun r => if r.id = i then applyUpdate r (buildUpdate body) else r))

/-- C1: for a truthy `id`, the update the apply route writes contains
exactly those of `applied`, `saved`, `notes` present in the body and no
other column; applying it to a row changes nothing but the present
dashboard-owned columns — every pipeline-derived field is untouched and
an omitted user field keeps its value. -/
theorem apply_route_partial_merge (db : List Job) (body : ApplyBody) (i : Int)
    (hid : body.id = some i) (hnz : i ≠ 0) :
    (∀ c ∈ (buildUpdate body).map ColUpdate.colName,
        c = "applied" ∨ c = "saved" ∨ c = "notes") ∧
    ("applied" ∈ (buildUpdate body).map ColUpdate.colName ↔ body.applied ≠ none) ∧
    ("saved" ∈ (buildUpdate body).map ColUpdate.colName ↔ body.saved ≠ none) ∧
    ("notes" ∈ (buildUpdate body).map ColUpdate.colName ↔ body.notes ≠ none) ∧
    postApply db body =
      (.okTrue,
        db.map (fun r => if r.id = i then applyUpdate r (buildUpdate body) else r)) ∧
    (∀ r : Job, applyUpdate r (buildUpdate body) =
      { r with applied := body.applied.getD r.applied,
               saved := body.saved.getD r.saved,
               notes := body.notes.elim r.notes some }) := by
  cases hA : body.applied <;> cases hS : body.saved <;> cases hN : body.notes <;>
    simp [postApply, hid, hnz, buildUpdate, hA, hS, hN, applyUpdate, applyCol,
      ColUpdate.colName]

/-- A concrete apply-route body toggling `applied` on row 2. -/
def applyBodyToggleApplied : ApplyBody :=
  { id := some 2, applied := some true, saved := none, notes := none }

/-- Witness for C1 at a concrete table and request body. -/
theorem apply_route_partial_merge_witness :
    postApply [jobMidScoreNoLlm] applyBodyToggleApplied =
      (ApplyResponse.okTrue,
        [applyUpdate jobMidScoreNoLlm (buildUpdate applyBodyToggleApplied)]) ∧
    applyUpdate jobMidScoreNoLlm (buildUpdate applyBodyToggleApplied) =
      { jobMidScoreNoLlm with applied := true } := by
  have h := apply_route_partial_merge [jobMidScoreNoLlm] applyBodyToggleApplied
    2 rfl (by decide)
  constructor
  · rw [h.2.2.2.2.1]
    decide
  · rw [h.2.2.2.2.2 jobMidScoreNoLlm]
    decide

/-- C8: a falsy `id` (missing, `null`, or the number `0`) makes the apply
route answer `400 {"error": "Missing id"}` without any database update —
so row id `0` can never be updated through this endpoint. -/
theorem apply_route_rejects_falsy_id (db : List Job) (body : ApplyBody)
    (h : body.id = none ∨ body.id = some 0) :
    postApply db body = (.errorResp 400 "Missing id", db) := by
  rcases h with h | h <;> simp [postApply, h]

/-- Witness for C8: the well-typed row id `0` is rejected and the table is
left alone. -/
theorem apply_route_rejects_falsy_id_witness :
    postApply [jobMidScoreNoLlm]
        { id := some 0, applied := some true, saved := none, notes := none } =
      (.errorResp 400 "Missing id", [jobMidScoreNoLlm]) :=
  apply_route_rejects_falsy_id [jobMidScoreNoLlm] _ (Or.inr rfl)

/-- Modelled from the spec: the Scorer's eight factor inputs (§4.5).  The
scorer itself is part of the pipeline core, which is not under `src/`
(only the capability summary documents it): title keyword match (core or
secondary tier), matched description keyword count, posting age in hours
(a missing `posted_date` is "now", i.e. age 0), applicant count,
`easy_apply`, remote/hybrid location, salary and dream-company match. -/
structure ScoreFactors where
  titleCore : Bool
  titleSecondary : Bool
  descKeywords : Nat
  ageHours : Nat
  applicants : Option Nat
  easy_apply : Bool
  remoteHybrid : Bool
  salary : Option Int
  dreamCompany : Bool
  deriving DecidableEq, Repr

/-- Clamp a summed bonus total to the score range `[0, 100]`. -/
def clampScore (x : Int) : Int := max 0 (min 100 x)

/-- Modelled from the spec: the Scorer (§4.5), absent from `src/` — each
factor contributes 0 or its fixed bonus (the title and the tiered factors
take the first matching tier only, description richness is +3 per keyword
capped at +15), the contributions are summed and the sum clamped to
`[0, 100]`. -/
def calculate_score (f : ScoreFactors) : Int :=
  let titleBonus : Int := if f.titleCore then 20 else if f.titleSecondary then 10 else 0
  let descBonus : Int := min (3 * (f.descKeywords : Int)) 15
  let freshBonus : Int :=
    if f.ageHours ≤ 12 then 25
    else if f.ageHours ≤ 24 then 20
    else if f.ageHours ≤ 48 then 10
    else if f.ageHours ≤ 72 then 5
    else 0
  let compBonus : Int :=
    match f.applicants with
    | some a => if a < 25 then 20 else if a < 50 then 15 else if a < 100 then 10 else 0
    | none => 10
  let easyBonus : Int := if f.easy_apply then 15 else 0
  let locBonus : Int := if f.remoteHybrid then 10 else 0
  let salaryBonus : Int :=
    match f.salary with
    | some s => if 150000 ≤ s then 10 else if 100000 ≤ s then 5 else 0
    | none => 0
  let dreamBonus : Int := if f.dreamCompany then 15 else 0
  clampScore (titleBonus + descBonus + freshBonus + compBonus + easyBonus +
    locBonus + salaryBonus + dreamBonus)

/-- C5: for every combination of the eight factor inputs the score is an
integer in `[0, 100]`. -/
theorem score_bounds (f : ScoreFactors) :
    0 ≤ calculate_score f ∧ calculate_score f ≤ 100 := by
  have h : ∀ x : Int, 0 ≤ clampScore x ∧ clampScore x ≤ 100 := by
    intro x
    unfold clampScore
    omega
  unfold calculate_score
  exact h _

/-- Modelled from the spec: a row of the Store's persisted table (§4.6,
§6), absent from `src/` — pipeline-derived columns plus the user-state
(`applied`, `saved`, `notes`) and bookkeeping (`notified`) columns. -/
structure StoreRow where
  url : String
  title : String
  company : String
  location : String
  salary : Option Int
  description : Option String
  source : String
  score : Int
  posted_date : Int
  easy_apply : Bool
  applicants : Option Int
  notified : Bool
  applied : Bool
  saved : Bool
  notes : Option String
  deriving DecidableEq, Repr

/-- Modelled from the spec: the record the pipeline hands to
`Store.upsert` — pipeline-derived fields only, keyed by `url`. -/
structure PipelineRecord where
  url : String
  title : String
  company : String
  location : String
  salary : Option Int
  description : Option String
  source : String
  score : Int
  posted_date : Int
  easy_apply : Bool
  applicants : Option Int
  deriving DecidableEq, Repr

/-- Overwrite only the pipeline-derived fields of an existing row,
leaving `applied`, `saved`, `notes` and `notified` untouched (§4.6). -/
def mergeRow (r : StoreRow) (rec : PipelineRecord) : StoreRow :=
  { r with
    title := rec.title, company := rec.company,
    location := rec.location, salary := rec.salary,
    description := rec.description, source := rec.source,
    score := rec.score, posted_date := rec.posted_date,
    easy_apply := rec.easy_apply, applicants := rec.applicants }

/-- Insert an unseen record fully, with `notified = false`,
`applied = false`, `saved = false` and empty notes (§4.6). -/
def insertRow (rec : PipelineRecord) : StoreRow :=
  { url := rec.url, title := rec.title, company := rec.company,
    location := rec.location, salary := rec.salary,
    description := rec.description, source := rec.source,
    score := rec.score, posted_date := rec.posted_date,
    easy_apply := rec.easy_apply, applicants := rec.applicants,
    notified := false, applied := false, saved := false, notes := none }

/-- Look a row up by its `url` key. -/
def lookup : List StoreRow → String → Option StoreRow
  | [], _ => none
  | r :: rest, u => if r.url = u then some r else lookup rest u

/-- Modelled from the spec: `Store.upsert` (§4.6), absent from `src/` —
merge into the row keyed by the record's `url` when one exists, else
insert the record as a fresh row. -/
def upsert : List StoreRow → PipelineRecord → List StoreRow
  | [], rec => [insertRow rec]
  | r :: rest, rec =>
    if r.url = rec.url then mergeRow r rec :: rest
    else r :: upsert rest rec

/-- C6: re-ingesting a `url` overwrites only pipeline-derived fields —
`applied`, `saved`, `notes`, `notified` survive (so `applied = true`
survives a score change) — and an unseen `url` is inserted with
`notified = false`, `applied = false`, `saved = false`. -/
theorem store_upsert_preserves_user_state (db : List StoreRow)
    (rec : PipelineRecord) :
    (∀ r, lookup db rec.url = some r →
      lookup (upsert db rec) rec.url = some (mergeRow r rec)) ∧
    (lookup db rec.url = none →
      lookup (upsert db rec) rec.url = some (insertRow rec)) ∧
    (∀ r, (mergeRow r rec).applied = r.applied ∧
      (mergeRow r rec).saved = r.saved ∧
      (mergeRow r rec).notes = r.notes ∧
      (mergeRow r rec).notified = r.notified ∧
      (mergeRow r rec).score = rec.score ∧
      (mergeRow r rec).url = r.url) ∧
    (insertRow rec).notified = false ∧
    (insertRow rec).applied = false ∧
    (insertRow rec).saved = false := by
  refine ⟨?_, ?_, fun r => ⟨rfl, rfl, rfl, rfl, rfl, rfl⟩, rfl, rfl, rfl⟩
  · intro r h
    induction db with
    | nil => cases h
    | cons x rest ih =>
      by_cases hx : x.url = rec.url
      · rw [lookup, if_pos hx] at h
        cases h
        rw [upsert, if_pos hx, lookup]
        simp [mergeRow, hx]
      · rw [lookup, if_neg hx] at h
        rw [upsert, if_neg hx, lookup, if_neg hx]
        exact ih h
  · intro h
    induction db with
    | nil =>
      rw [upsert, lookup]
      simp [insertRow]
    | cons x rest ih =>
      by_cases hx : x.url = rec.url
      · rw [lookup, if_pos hx] at h
        cases h
      · rw [lookup, if_neg hx] at h
        rw [upsert, if_neg hx, lookup, if_neg hx]
        exact ih h

/-- A stored row the user has marked applied. -/
def storedAppliedRow : StoreRow :=
  { url := "https://example.com/a", title := "Data Engineer",
    company := "Acme", location := "Remote", salary := none,
    description := none, source := "dice", score := 40, posted_date := 0,
    easy_apply := false, applicants := none, notified := true,
    applied := true, saved := false, notes := some "phone screen Friday" }

/-- A re-ingestion of the same `url` carrying a changed score. -/
def reingestRecord : PipelineRecord :=
  { url := "https://example.com/a", title := "Data Engineer",
    company := "Acme", location := "Remote", salary := some 120000,
    description := some "ETL pipelines", source := "dice", score := 77,
    posted_date := 3600000, easy_apply := true, applicants := some 12 }

/-- Witness for C6: the applied row keeps `applied = true` across a score
change, and an insert into an empty store starts unnotified. -/
theorem store_upsert_preserves_user_state_witness :
    lookup (upsert [storedAppliedRow] reingestRecord) reingestRecord.url =
      some (mergeRow storedAppliedRow reingestRecord) ∧
    (mergeRow storedAppliedRow reingestRecord).applied = true ∧
    (mergeRow storedAppliedRow reingestRecord).score = 77 ∧
    lookup (upsert [] reingestRecord) reingestRecord.url =
      some (insertRow reingestRecord) ∧
    (insertRow reingestRecord).notified = false := by
  have h := store_upsert_preserves_user_state [storedAppliedRow] reingestRecord
  have h0 := store_upsert_preserves_user_state [] reingestRecord
  exact ⟨h.1 storedAppliedRow (by decide), by decide, by decide,
    h0.2.1 rfl, h0.2.2.2.2.1⟩

/-- Modelled from the spec: the Notifier's digest selection (§4.7),
absent from `src/` — the top-K records with `notified = false`, ordered
by `score` descending. -/
def selectDigest (db : List StoreRow) (k : Nat) : List StoreRow :=
  (sortDesc (fun r => r.score) (db.filter (fun r => !r.notified))).take k

/-- Flip a row's notified flag on. -/
def markNotified (r : StoreRow) : StoreRow := { r with notified := true }

/-- Modelled from the spec: one Notifier digest run (§4.7), absent from
`src/` — deliver the selected records to the external channel; only when
delivery succeeds are the selected records marked `notified = true` in
the Store, a failure leaves the Store untouched. -/
def runDigest (db : List StoreRow) (k : Nat) (delivered : Bool) : List StoreRow :=
  if delivered then
    db.map (fun r => if r ∈ selectDigest db k then markNotified r else r)
  else db

theorem mem_selectDigest {db : List StoreRow} {k : Nat} {r : StoreRow}
    (h : r ∈ selectDigest db k) : r ∈ db ∧ r.notified = false := by
  have h1 : r ∈ sortDesc (fun r => r.score) (db.filter (fun r => !r.notified)) :=
    (List.take_sublist _ _).subset h
  rw [mem_sortDesc] at h1
  have h2 := List.mem_filter.mp h1
  exact ⟨h2.1, by simpa using h2.2⟩

/-- C7: digest delivery failure leaves the Store unchanged — every
selected record still has `notified = false` and stays eligible — while
success marks every selected record `notified = true` and excludes it
from the next digest selection. -/
theorem notifier_at_most_once (db : List StoreRow) (k : Nat) :
    runDigest db k false = db ∧
      (∀ r ∈ selectDigest db k, r.notified = false) ∧
      (∀ r ∈ selectDigest db k, markNotified r ∈ runDigest db k true) ∧
      (∀ r ∈ selectDigest (runDigest db k true) k, r ∉ selectDigest db k) := by
  refine ⟨rfl, ?_, ?_, ?_⟩
  · intro r hr
    exact (mem_selectDigest hr).2
  · intro r hr
    have hdb := (mem_selectDigest hr).1
    rw [runDigest, if_pos rfl]
    exact List.mem_map.mpr ⟨r, hdb, by rw [if_pos hr]⟩
  · intro r hr hmem
    have h1 := mem_selectDigest hr
    have h2 := h1.1
    rw [runDigest, if_pos rfl] at h2
    obtain ⟨a, ha, hfa⟩ := List.mem_map.mp h2
    by_cases hsel : a ∈ selectDigest db k
    · rw [if_pos hsel] at hfa
      have hnt : r.notified = true := by
        rw [← hfa]
        rfl
      rw [h1.2] at hnt
      cases hnt
    · rw [if_neg hsel] at hfa
      exact hsel (hfa ▸ hmem)

/-- A stored row the digest has not yet surfaced. -/
def unnotifiedRow : StoreRow :=
  { url := "https://example.com/b", title := "ETL Engineer",
    company := "Beta", location := "Remote", salary := some 130000,
    description := none, source := "remoteok", score := 60,
    posted_date := 0, easy_apply := true, applicants := some 8,
    notified := false, applied := false, saved := false, notes := none }

/-- Witness for C7 at a concrete Store (one already-notified row, one
unnotified row) and the default top-10 digest. -/
theorem notifier_at_most_once_witness :
    runDigest [storedAppliedRow, unnotifiedRow] 10 false =
      [storedAppliedRow, unnotifiedRow] ∧
    unnotifiedRow.notified = false ∧
    markNotified unnotifiedRow ∈ runDigest [storedAppliedRow, unnotifiedRow] 10 true := by
  have h := notifier_at_most_once [storedAppliedRow, unnotifiedRow] 10
  exact ⟨h.1, h.2.1 unnotifiedRow (by decide), h.2.2.1 unnotifiedRow (by decide)⟩

/-- A JSON value, as `res.json()` can produce it in the dashboard. -/
inductive JsonValue where
  | jnull
  | jbool (b : Bool)
  | jnum (n : Int)
  | jstr (s : String)
  | jarr (elems : List JsonValue)
  | jobj (fields : List (String × JsonValue))

/-- JavaScript `Array.isArray`. -/
def isArray : JsonValue → Bool
  | .jarr _ => true
  | _ => false

/-- The dashboard's `Array.isArray(x) ? x : []` guard in `fetchData`
(src/website/app/page.tsx): a non-array response body is replaced by the
empty list before it reaches `setJobs`/`setPosts`. -/
def jsArrayOrEmpty : JsonValue → List JsonValue
  | .jarr l => l
  | _ => []

/-- The state writes of `fetchData`: the pair handed to `setJobs` and
`setPosts` from the two response bodies. -/
def fetchDataStates (jobsBody postsBody : JsonValue) :
    List JsonValue × List JsonValue :=
  (jsArrayOrEmpty jobsBody, jsArrayOrEmpty postsBody)

/-- The status-500 body of `GET /api/jobs` (src/website/app/api/jobs/route.ts). -/
def jobsErrorBody : JsonValue := .jobj [("error", .jstr "Failed to fetch jobs")]

/-- The status-500 body of `GET /api/posts`. -/
def postsErrorBody : JsonValue := .jobj [("error", .jstr "Failed to fetch posts")]

/-- C9: a non-array response body — in particular either route's
`{"error": ...}` object — is stored as the empty list, so the jobs and
posts state is always an array. -/
theorem fetchdata_state_always_array :
    (∀ b, isArray b = false → jsArrayOrEmpty b = []) ∧
      isArray jobsErrorBody = false ∧
      isArray postsErrorBody = false ∧
      fetchDataStates jobsErrorBody postsErrorBody = ([], []) := by
  refine ⟨?_, rfl, rfl, rfl⟩
  intro b hb
  cases b <;> simp_all [isArray, jsArrayOrEmpty]

/-- Witness for C9 at the jobs route's concrete error body. -/
theorem fetchdata_state_always_array_witness :
    jsArrayOrEmpty jobsErrorBody = [] :=
  fetchdata_state_always_array.1 jobsErrorBody rfl

/-- The average-score computation of `StatsBar`: `total` guards the division
(`total ? Math.round(sum / total) : 0`), with `sum` the
`jobs.reduce((s, j) => s + j.score, 0)` fold and `Math.round x = ⌊x + 1/2⌋`. -/
def statsAvgScore (jobs : List Job) : Int :=
  if jobs.length = 0 then 0
  else ⌊((jobs.foldl (fun s j => s + j.score) 0 : Int) : ℚ) / (jobs.length : ℚ) + 1 / 2⌋

/-- C10: `StatsBar`'s average score is total — `0` on the empty list (the
division never runs there, so no `NaN`), and the rounded arithmetic mean
of the `score` fields otherwise. -/
theorem statsbar_avg_total (jobs : List Job) :
    (jobs = [] → statsAvgScore jobs = 0) ∧
      (jobs ≠ [] → statsAvgScore jobs =
        ⌊(((jobs.map (fun j => j.score)).sum : Int) : ℚ) / (jobs.length : ℚ) + 1 / 2⌋) := by
  constructor
  · intro h
    subst h
    rfl
  · intro h
    have hne : ¬ jobs.length = 0 := by
      simpa [List.length_eq_zero] using h
    have hsum : jobs.foldl (fun s j => s + j.score) 0 =
        (jobs.map (fun j => j.score)).sum := by
      rw [List.sum_eq_foldl, List.foldl_map]
    rw [statsAvgScore, if_neg hne, hsum]

/-- Witness for C10: empty list and a concrete two-job list whose mean
30 is the displayed value. -/
theorem statsbar_avg_total_witness :
    statsAvgScore [] = 0 ∧
      statsAvgScore [jobLowScoreHighLlm, jobMidScoreNoLlm] = 30 := by
  refine ⟨(statsbar_avg_total []).1 rfl, ?_⟩
  rw [(statsbar_avg_total [jobLowScoreHighLlm, jobMidScoreNoLlm]).2 (by simp)]
  have hs : (([jobLowScoreHighLlm, jobMidScoreNoLlm].map (fun j => j.score)).sum : Int) = 60 := by
    decide
  rw [hs]
  norm_num [Int.floor_eq_iff]

end JobPipeline
